import Mathlib

/-!
# Verification of the chunked P2P file-share core

Shallow embedding of the repository's core logic:

* `shouldCompress` and the sender chunk loop of `performP2PSendAndUpdateState`
  (react-app `App.tsx`);
* the receiver state machine `commonP2POnDataHandler` together with
  `resetP2PReceiveStates` and the receive-timeout policy;
* the signaling relay `SignalingRoom.fetch` (worker) and the
  `/ws/signaling/:roomId` route;
* `P2PService.destroy`;
* the unified share-flow orchestration of `executeShareAttempt`.

Bytes are modelled as `Nat`, byte buffers as `List Nat`, strings as Lean
`String`.  JavaScript `setTimeout` deadlines are modelled as absolute
millisecond timestamps stored in the state; firing a timer is an explicit
event that is a no-op when the deadline has been disarmed (mirroring
`clearTimeout`).  React `useState` setters are modelled as field updates on an
explicit state record, with reads seeing the current state.
-/

namespace CalmSilence

/-- A browser `File` as the sender sees it: only the name, the declared MIME
type, and the content bytes are ever consulted. -/
structure JSFile where
  name : String
  type : String
  content : List Nat
deriving Repr, DecidableEq

/-- JavaScript `String.prototype.endsWith`, computed on the character lists of
the two strings so that the kernel can evaluate it. -/
def jsEndsWith (s suffix : String) : Bool :=
  suffix.data.isSuffixOf s.data

/-- The `alreadyCompressedTypes` list from `shouldCompress` in `App.tsx`. -/
def alreadyCompressedTypes : List String :=
  ["image/jpeg", "image/png", "image/gif", "video/mp4",
   "application/zip", "application/gzip", "application/pdf"]

/-- `shouldCompress` from `App.tsx`: refuse to compress when the filename ends
in `.gz` / `.zip` / `.rar`, otherwise compress exactly when the declared MIME
type is not in the known already-compressed list. -/
def shouldCompress (file : JSFile) : Bool :=
  if jsEndsWith file.name ".gz" || jsEndsWith file.name ".zip" || jsEndsWith file.name ".rar" then
    false
  else
    !(alreadyCompressedTypes.contains file.type)

/-- `CHUNK_SIZE = 64 * 1024` from `App.tsx`. -/
def CHUNK_SIZE : Nat := 64 * 1024

/-- `P2P_RECEIVE_TIMEOUT_MS = 30000` from `App.tsx`. -/
def P2P_RECEIVE_TIMEOUT_MS : Nat := 30000

/-- `P2P_CONNECT_TIMEOUT_MS = 15000` from `App.tsx`. -/
def P2P_CONNECT_TIMEOUT_MS : Nat := 15000

/-- `Math.round((a / b) * 100)` for natural numerator `a` and positive
denominator `b`: round-half-up of `100 * a / b`, computed exactly as
`⌊(200 * a + b) / (2 * b)⌋`.  (`a / 0` is `NaN` in JavaScript; that case is
never reached by the protocol because chunks only exist for nonempty
payloads.) -/
def roundPercent (a b : Nat) : Nat := (200 * a + b) / (2 * b)

/-- The `file-meta` payload `{ name, size, type, isCompressed }` of the wire
protocol (`P2PFileMeta` in `App.tsx`). -/
structure P2PFileMeta where
  name : String
  size : Nat
  type : String
  isCompressed : Bool
deriving Repr, DecidableEq

/-- One frame on the direct data channel: a JSON control frame or a raw
binary chunk. -/
inductive Frame where
  | fileMeta (m : P2PFileMeta)
  | fileEnd (name : String)
  | text (payload : String)
  | r2FileShare (payload : String)
  | binary (data : List Nat)
deriving Repr, DecidableEq

/-- JavaScript defaulting `file.type || 'application/octet-stream'` used by
the sender. -/
def originalFileType (file : JSFile) : String :=
  if file.type = "" then "application/octet-stream" else file.type

/-- The chunk-emitting `while` loop of `performP2PSendAndUpdateState`:
starting at `offset`, slice off `CHUNK_SIZE`-byte pieces of `fileData` and
after each piece report `Math.round(offset / size * 100)` percent.  Returns
the (chunk, reported percent) pairs in emission order. -/
def sendLoop (fileData : List Nat) (offset : Nat) : List (List Nat × Nat) :=
  if h : offset < fileData.length then
    let chunk := (fileData.drop offset).take CHUNK_SIZE
    (chunk, roundPercent (offset + chunk.length) fileData.length) ::
      sendLoop fileData (offset + chunk.length)
  else []
termination_by fileData.length - offset
decreasing_by
  simp only [List.length_take, List.length_drop]
  have hC : 0 < CHUNK_SIZE := by decide
  omega

/-- Everything `performP2PSendAndUpdateState` emits: the wire frames in send
order and the integer percent reported after each chunk. -/
structure SendResult where
  frames : List Frame
  progressReports : List Nat
deriving Repr, DecidableEq

/-- `performP2PSendAndUpdateState` from `App.tsx`, with the external
`pako.deflate` codec passed in as `deflate`: optionally compress per
`shouldCompress`, emit one `file-meta` carrying the post-compression size,
emit the chunk loop's binary frames, then one `file-end`. -/
def performP2PSendFrames (deflate : List Nat → List Nat) (file : JSFile) : SendResult :=
  let fileDataForSending :=
    if shouldCompress file then deflate file.content else file.content
  let isCompressedForP2P := shouldCompress file
  let fileSizeForSending := fileDataForSending.length
  let pieces := sendLoop fileDataForSending 0
  { frames :=
      Frame.fileMeta
        { name := file.name, size := fileSizeForSending,
          type := originalFileType file, isCompressed := isCompressedForP2P } ::
      (pieces.map (fun p => Frame.binary p.1) ++ [Frame.fileEnd file.name]),
    progressReports := pieces.map Prod.snd }

/-- Receiver-side transfer state of `App.tsx`: the active descriptor
(`p2pReceivingFileMeta`), the ordered chunk buffers
(`p2pReceivedFileChunks`), the progress display
(`p2pFileTransferProgress`, filename and percent), and the armed receive
deadline (`p2pReceiveTimeoutIdRef`, as an absolute ms timestamp, `none` when
no timer is armed). -/
structure RecvState where
  receivingFileMeta : Option P2PFileMeta
  receivedFileChunks : List (List Nat)
  transferProgress : Option (String × Nat)
  receiveDeadline : Option Nat
deriving Repr, DecidableEq

/-- The state before any transfer: everything null / empty. -/
def initialRecvState : RecvState :=
  { receivingFileMeta := none, receivedFileChunks := [],
    transferProgress := none, receiveDeadline := none }

/-- `resetP2PReceiveStates` from `App.tsx`: clear the timer and null all
transfer state. -/
def resetP2PReceiveStates : RecvState := initialRecvState

/-- The observable outcome of one receiver step: the next state, the file
handed to the caller (if any), whether an error/timeout notification was
raised via `resetP2PReceiveStates(errorMessage)`, and whether an orphan
chunk warning was logged. -/
structure RecvStep where
  state : RecvState
  delivered : Option (List Nat)
  notifiedError : Bool
  warned : Bool
deriving Repr, DecidableEq

/-- `commonP2POnDataHandler` from `App.tsx`, at absolute time `now`, with the
external `pako.inflate` codec passed in as `inflate` (`none` models a codec
exception).  `file-meta` replaces any active transfer and arms the 30 s
deadline; a matching `file-end` concatenates the buffered chunks in order,
decompresses when the descriptor says so, delivers, and clears state; a
binary chunk is appended and re-arms the deadline (halved once the expected
byte count has been reached); a chunk with no active descriptor is only
warned about; `text` / `r2-file-share` / unrecognized frames leave transfer
state untouched. -/
def commonP2POnData (inflate : List Nat → Option (List Nat)) (now : Nat)
    (s : RecvState) (f : Frame) : RecvStep :=
  match f with
  | Frame.fileMeta m =>
      { state :=
          { receivingFileMeta := some m, receivedFileChunks := [],
            transferProgress := some (m.name, 0),
            receiveDeadline := some (now + P2P_RECEIVE_TIMEOUT_MS) },
        delivered := none, notifiedError := false, warned := false }
  | Frame.fileEnd n =>
      match s.receivingFileMeta with
      | some m =>
          if n = m.name then
            let bytes := s.receivedFileChunks.flatten
            if m.isCompressed then
              match inflate bytes with
              | some out =>
                  { state := resetP2PReceiveStates, delivered := some out,
                    notifiedError := false, warned := false }
              | none =>
                  { state := resetP2PReceiveStates, delivered := none,
                    notifiedError := true, warned := false }
            else
              { state := resetP2PReceiveStates, delivered := some bytes,
                notifiedError := false, warned := false }
          else
            { state := s, delivered := none, notifiedError := false, warned := false }
      | none =>
          { state := s, delivered := none, notifiedError := false, warned := false }
  | Frame.binary b =>
      match s.receivingFileMeta with
      | some m =>
          let currentChunks := s.receivedFileChunks ++ [b]
          let currentSize := (currentChunks.map List.length).sum
          { state :=
              { receivingFileMeta := some m, receivedFileChunks := currentChunks,
                transferProgress := some (m.name, roundPercent currentSize m.size),
                receiveDeadline := some (now +
                  (if currentSize < m.size then P2P_RECEIVE_TIMEOUT_MS
                   else P2P_RECEIVE_TIMEOUT_MS / 2)) },
            delivered := none, notifiedError := false, warned := false }
      | none =>
          { state := s, delivered := none, notifiedError := false, warned := true }
  | Frame.text _ =>
      { state := s, delivered := none, notifiedError := false, warned := false }
  | Frame.r2FileShare _ =>
      { state := s, delivered := none, notifiedError := false, warned := false }

/-- Expiry of the armed receive deadline: the `setTimeout` callback runs
`resetP2PReceiveStates("... timed out ...")`.  Firing with no armed deadline
is a no-op (the timer was cleared). -/
def fireReceiveTimeout (s : RecvState) : RecvStep :=
  match s.receiveDeadline with
  | some _ =>
      { state := resetP2PReceiveStates, delivered := none,
        notifiedError := true, warned := false }
  | none =>
      { state := s, delivered := none, notifiedError := false, warned := false }

/-- One receiver-side event: a frame arriving at time `now`, or the receive
timer firing. -/
inductive REvent where
  | frame (now : Nat) (f : Frame)
  | timerFire
deriving Repr, DecidableEq

/-- Run the receiver over a sequence of events, collecting every payload
delivered to the caller in order. -/
def processTrace (inflate : List Nat → Option (List Nat)) :
    List REvent → RecvState → RecvState × List (List Nat)
  | [], s => (s, [])
  | REvent.frame now f :: evs, s =>
      let st := commonP2POnData inflate now s f
      let rest := processTrace inflate evs st.state
      (rest.1, st.delivered.toList ++ rest.2)
  | REvent.timerFire :: evs, s =>
      let st := fireReceiveTimeout s
      processTrace inflate evs st.state

/-! ## Helper lemmas about the sender chunk loop -/

lemma sendLoop_of_lt (data : List Nat) (offset : Nat) (h : offset < data.length) :
    sendLoop data offset =
      ((data.drop offset).take CHUNK_SIZE,
        roundPercent (offset + min CHUNK_SIZE (data.length - offset)) data.length) ::
      sendLoop data (offset + min CHUNK_SIZE (data.length - offset)) := by
  rw [sendLoop]
  simp [h, List.length_take, List.length_drop]

lemma sendLoop_of_ge (data : List Nat) (offset : Nat) (h : ¬ offset < data.length) :
    sendLoop data offset = [] := by
  rw [sendLoop]
  simp [h]

lemma drop_min_length (l : List Nat) (n : Nat) : l.drop (min n l.length) = l.drop n := by
  rcases Nat.le_total n l.length with h | h
  · rw [Nat.min_eq_left h]
  · rw [Nat.min_eq_right h, List.drop_length, List.drop_eq_nil_of_le h]

/-- The chunks emitted from `offset` on, concatenated in order, are exactly
the remainder of the payload: the loop covers the payload with no gaps or
overlaps. -/
lemma sendLoop_flatten (data : List Nat) (offset : Nat) :
    ((sendLoop data offset).map Prod.fst).flatten = data.drop offset := by
  by_cases h : offset < data.length
  · rw [sendLoop_of_lt data offset h]
    have ih := sendLoop_flatten data (offset + min CHUNK_SIZE (data.length - offset))
    simp only [List.map_cons, List.flatten_cons, ih]
    have hdd : data.drop (offset + min CHUNK_SIZE (data.length - offset))
        = (data.drop offset).drop (min CHUNK_SIZE (data.length - offset)) := by
      rw [List.drop_drop, Nat.add_comm]
    have hlen : data.length - offset = (data.drop offset).length := by
      rw [List.length_drop]
    rw [hdd, hlen, drop_min_length]
    exact List.take_append_drop _ _
  · rw [sendLoop_of_ge data offset h]
    simp [List.drop_eq_nil_of_le (le_of_not_lt h)]
termination_by data.length - offset
decreasing_by
  have hC : 0 < CHUNK_SIZE := by decide
  omega

/-! ## Helper lemmas about the receiver -/

/-- Running the receiver over a block of binary chunks while a descriptor is
active delivers nothing and just appends the chunks in order. -/
lemma processTrace_binary_chunks (inflate : List Nat → Option (List Nat)) (now : Nat)
    (m : P2PFileMeta) (cs : List (List Nat)) :
    ∀ s : RecvState, s.receivingFileMeta = some m →
    ∀ evs : List REvent,
    ∃ s' : RecvState, s'.receivingFileMeta = some m
      ∧ s'.receivedFileChunks = s.receivedFileChunks ++ cs
      ∧ processTrace inflate (cs.map (fun c => REvent.frame now (Frame.binary c)) ++ evs) s
          = processTrace inflate evs s' := by
  induction cs with
  | nil =>
      intro s hs evs
      exact ⟨s, hs, by simp, by simp⟩
  | cons c cs ih =>
      intro s hs evs
      obtain ⟨s', h1, h2, h3⟩ :=
        ih ((commonP2POnData inflate now s (Frame.binary c)).state)
          (by simp [commonP2POnData, hs]) evs
      refine ⟨s', h1, ?_, ?_⟩
      · rw [h2]
        simp [commonP2POnData, hs]
      · simp only [commonP2POnData, hs] at h3
        simp only [List.map_cons, List.cons_append, processTrace, commonP2POnData, hs]
        simp at h3 ⊢
        exact h3

/-! ## Claim theorems: chunked transfer protocol -/

/-- C1: for every byte sequence `B` (including the empty one), running the
sender algorithm of `performP2PSendAndUpdateState` (split `B` into ordered
chunks of at most `CHUNK_SIZE` bytes between one `file-meta` and one
`file-end`) and feeding its frames in order into the receiver
`commonP2POnDataHandler` (append each chunk, concatenate in receipt order on
the matching `file-end`) delivers exactly `B` to the receiving caller, from
the pristine receiver state back to the pristine receiver state. -/
theorem sender_chunks_receiver_reassembles (inflate : List Nat → Option (List Nat))
    (deflate : List Nat → List Nat) (now : Nat) (file : JSFile)
    (h : shouldCompress file = false) :
    processTrace inflate
      ((performP2PSendFrames deflate file).frames.map (REvent.frame now))
      initialRecvState
      = (initialRecvState, [file.content]) := by
  have hmeta :
      (performP2PSendFrames deflate file).frames.map (REvent.frame now)
        = REvent.frame now (Frame.fileMeta
            { name := file.name, size := file.content.length,
              type := originalFileType file, isCompressed := false }) ::
          (((sendLoop file.content 0).map Prod.fst).map
              (fun c => REvent.frame now (Frame.binary c)) ++
            [REvent.frame now (Frame.fileEnd file.name)]) := by
    simp [performP2PSendFrames, h, List.map_map, Function.comp]
  rw [hmeta]
  obtain ⟨s', h1, h2, h3⟩ :=
    processTrace_binary_chunks inflate now
      { name := file.name, size := file.content.length,
        type := originalFileType file, isCompressed := false }
      ((sendLoop file.content 0).map Prod.fst)
      { receivingFileMeta := some
          { name := file.name, size := file.content.length,
            type := originalFileType file, isCompressed := false },
        receivedFileChunks := [], transferProgress := some (file.name, 0),
        receiveDeadline := some (now + P2P_RECEIVE_TIMEOUT_MS) }
      rfl
      [REvent.frame now (Frame.fileEnd file.name)]
  simp only [List.nil_append] at h2
  simp only [processTrace, commonP2POnData, h3]
  have hflat : s'.receivedFileChunks.flatten = file.content := by
    rw [h2, sendLoop_flatten, List.drop_zero]
  simp [processTrace, commonP2POnData, h1, hflat, resetP2PReceiveStates, initialRecvState]

/-- Witness for C1 at a concrete incompressible file. -/
theorem sender_chunks_receiver_reassembles_witness :
    shouldCompress { name := "a.zip", type := "application/zip", content := [1, 2, 3] } = false
    ∧ processTrace (fun _ => none)
        ((performP2PSendFrames id
            { name := "a.zip", type := "application/zip", content := [1, 2, 3] }).frames.map
          (REvent.frame 0))
        initialRecvState
        = (initialRecvState, [[1, 2, 3]]) :=
  ⟨by decide,
   sender_chunks_receiver_reassembles (fun _ => none) id 0
     { name := "a.zip", type := "application/zip", content := [1, 2, 3] } (by decide)⟩

/-- C2: the receiver deadline is armed at `T_recv = 30000` ms on `file-meta`,
re-armed on every chunk — at `T_recv` while the running byte total is short
of the declared size, and at `T_recv / 2 = 15000` ms once the expected total
has been received but `file-end` is still missing — and expiry of an armed
deadline raises a timeout notification and clears descriptor, chunk list,
progress, and timer. -/
theorem receiver_timeout_policy (inflate : List Nat → Option (List Nat)) (now : Nat)
    (s : RecvState) (m : P2PFileMeta) (b : List Nat) (d : Nat) :
    ((commonP2POnData inflate now s (Frame.fileMeta m)).state.receiveDeadline
        = some (now + P2P_RECEIVE_TIMEOUT_MS))
    ∧ (s.receivingFileMeta = some m →
        (commonP2POnData inflate now s (Frame.binary b)).state.receiveDeadline
          = some (now +
              (if ((s.receivedFileChunks ++ [b]).map List.length).sum < m.size
               then P2P_RECEIVE_TIMEOUT_MS else P2P_RECEIVE_TIMEOUT_MS / 2)))
    ∧ P2P_RECEIVE_TIMEOUT_MS = 30000
    ∧ P2P_RECEIVE_TIMEOUT_MS / 2 = 15000
    ∧ (s.receiveDeadline = some d →
        fireReceiveTimeout s =
          { state := initialRecvState, delivered := none,
            notifiedError := true, warned := false }) := by
  refine ⟨by simp [commonP2POnData], fun hm => ?_, rfl, rfl, fun hd => ?_⟩
  · simp [commonP2POnData, hm]
  · simp [fireReceiveTimeout, hd, resetP2PReceiveStates]

/-- Witness for C2: a chunk that completes the expected byte count arms the
half deadline, and firing an armed deadline clears everything. -/
theorem receiver_timeout_policy_witness :
    (commonP2POnData (fun _ => none) 100
        { receivingFileMeta := some { name := "f", size := 2, type := "t", isCompressed := false },
          receivedFileChunks := [[1]], transferProgress := some ("f", 50),
          receiveDeadline := some 5 } (Frame.binary [2])).state.receiveDeadline
      = some (100 + P2P_RECEIVE_TIMEOUT_MS / 2)
    ∧ fireReceiveTimeout
        { receivingFileMeta := some { name := "f", size := 2, type := "t", isCompressed := false },
          receivedFileChunks := [[1]], transferProgress := some ("f", 50),
          receiveDeadline := some 5 }
        = { state := initialRecvState, delivered := none,
            notifiedError := true, warned := false } := by
  have h := receiver_timeout_policy (fun _ => none) 100
    { receivingFileMeta := some { name := "f", size := 2, type := "t", isCompressed := false },
      receivedFileChunks := [[1]], transferProgress := some ("f", 50),
      receiveDeadline := some 5 }
    { name := "f", size := 2, type := "t", isCompressed := false } [2] 5
  refine ⟨?_, h.2.2.2.2 rfl⟩
  have h2 := h.2.1 rfl
  simpa using h2

/-- C3: a `file-meta` frame arriving while a prior transfer is unfinished
records the new descriptor, discards the prior descriptor and all of its
buffered chunks, delivers nothing at that step, and every later observable
output is independent of the discarded state — so zero bytes of the
discarded transfer are ever delivered to the caller. -/
theorem new_file_meta_supersedes_transfer (inflate : List Nat → Option (List Nat))
    (now : Nat) (s sAlt : RecvState) (m : P2PFileMeta) (evs : List REvent) :
    (commonP2POnData inflate now s (Frame.fileMeta m)).state.receivingFileMeta = some m
    ∧ (commonP2POnData inflate now s (Frame.fileMeta m)).state.receivedFileChunks = []
    ∧ (commonP2POnData inflate now s (Frame.fileMeta m)).delivered = none
    ∧ processTrace inflate (REvent.frame now (Frame.fileMeta m) :: evs) s
        = processTrace inflate (REvent.frame now (Frame.fileMeta m) :: evs) sAlt := by
  refine ⟨rfl, rfl, rfl, ?_⟩
  simp [processTrace, commonP2POnData]

/-- C10: a binary chunk arriving while no descriptor is active draws only a
logged warning: the state (descriptor, chunk list, progress, timer) is
untouched, nothing is delivered, and the rest of any trace behaves exactly
as if the chunk had never arrived. -/
theorem orphan_chunk_discarded (inflate : List Nat → Option (List Nat)) (now : Nat)
    (s : RecvState) (b : List Nat) (evs : List REvent)
    (h : s.receivingFileMeta = none) :
    (commonP2POnData inflate now s (Frame.binary b)).state = s
    ∧ (commonP2POnData inflate now s (Frame.binary b)).delivered = none
    ∧ (commonP2POnData inflate now s (Frame.binary b)).warned = true
    ∧ (commonP2POnData inflate now s (Frame.binary b)).notifiedError = false
    ∧ processTrace inflate (REvent.frame now (Frame.binary b) :: evs) s
        = processTrace inflate evs s := by
  refine ⟨by simp [commonP2POnData, h], by simp [commonP2POnData, h],
    by simp [commonP2POnData, h], by simp [commonP2POnData, h], ?_⟩
  simp [processTrace, commonP2POnData, h]

/-- Witness for C10 at the pristine receiver state. -/
theorem orphan_chunk_discarded_witness :
    (commonP2POnData (fun _ => none) 0 initialRecvState (Frame.binary [7, 7])).state
        = initialRecvState
    ∧ processTrace (fun _ => none) [REvent.frame 0 (Frame.binary [7, 7])] initialRecvState
        = processTrace (fun _ => none) [] initialRecvState := by
  have h := orphan_chunk_discarded (fun _ => none) 0 initialRecvState [7, 7] [] rfl
  exact ⟨h.1, h.2.2.2.2⟩

/-- Concrete unfolding of the chunk loop on a 200000-byte payload. -/
lemma sendLoop_200000 (data : List Nat) (hL : data.length = 200000) :
    sendLoop data 0 =
      [ (data.take 65536, 33),
        ((data.drop 65536).take 65536, 66),
        ((data.drop 131072).take 65536, 98),
        ((data.drop 196608).take 65536, 100) ] := by
  have e1 := sendLoop_of_lt data 0 (by omega)
  have e2 := sendLoop_of_lt data 65536 (by omega)
  have e3 := sendLoop_of_lt data 131072 (by omega)
  have e4 := sendLoop_of_lt data 196608 (by omega)
  have e5 := sendLoop_of_ge data 200000 (by omega)
  rw [hL] at e1 e2 e3 e4
  norm_num [CHUNK_SIZE] at e1 e2 e3 e4
  rw [e1, e2, e3, e4, e5]
  norm_num [roundPercent]

/-- C4: sending a 200000-byte payload of an incompressible declared type with
`CHUNK_SIZE = 64` KiB emits exactly one `file-meta`, then chunks of sizes
`[65536, 65536, 65536, 3392]` in order covering the payload with no gaps or
overlaps, then exactly one `file-end`, and reports an integer percent in
0–100 after every chunk, strictly increasing and ending at 100. -/
theorem send_200000_scenario (deflate : List Nat → List Nat) (file : JSFile)
    (hC : shouldCompress file = false) (hL : file.content.length = 200000) :
    (performP2PSendFrames deflate file).frames =
      [ Frame.fileMeta { name := file.name, size := 200000,
                          type := originalFileType file, isCompressed := false },
        Frame.binary (file.content.take 65536),
        Frame.binary ((file.content.drop 65536).take 65536),
        Frame.binary ((file.content.drop 131072).take 65536),
        Frame.binary ((file.content.drop 196608).take 65536),
        Frame.fileEnd file.name ]
    ∧ [(file.content.take 65536).length, ((file.content.drop 65536).take 65536).length,
        ((file.content.drop 131072).take 65536).length,
        ((file.content.drop 196608).take 65536).length] = [65536, 65536, 65536, 3392]
    ∧ file.content.take 65536 ++ ((file.content.drop 65536).take 65536 ++
        ((file.content.drop 131072).take 65536 ++ (file.content.drop 196608).take 65536))
        = file.content
    ∧ ((performP2PSendFrames deflate file).frames.countP
          (fun fr => match fr with | Frame.fileMeta _ => true | _ => false)) = 1
    ∧ ((performP2PSendFrames deflate file).frames.countP
          (fun fr => match fr with | Frame.fileEnd _ => true | _ => false)) = 1
    ∧ (performP2PSendFrames deflate file).progressReports = [33, 66, 98, 100]
    ∧ (performP2PSendFrames deflate file).progressReports.Chain' (· < ·)
    ∧ (∀ p ∈ (performP2PSendFrames deflate file).progressReports, p ≤ 100)
    ∧ (performP2PSendFrames deflate file).progressReports.getLast? = some 100 := by
  have hframes : (performP2PSendFrames deflate file).frames =
      [ Frame.fileMeta { name := file.name, size := 200000,
                          type := originalFileType file, isCompressed := false },
        Frame.binary (file.content.take 65536),
        Frame.binary ((file.content.drop 65536).take 65536),
        Frame.binary ((file.content.drop 131072).take 65536),
        Frame.binary ((file.content.drop 196608).take 65536),
        Frame.fileEnd file.name ] := by
    simp [performP2PSendFrames, hC, sendLoop_200000 file.content hL, hL]
  have hreports : (performP2PSendFrames deflate file).progressReports = [33, 66, 98, 100] := by
    simp [performP2PSendFrames, hC, sendLoop_200000 file.content hL]
  have hcat := sendLoop_flatten file.content 0
  rw [sendLoop_200000 file.content hL] at hcat
  simp only [List.map_cons, List.map_nil, List.flatten_cons, List.flatten_nil,
    List.append_nil, List.drop_zero] at hcat
  refine ⟨hframes, ?_, hcat, ?_, ?_, hreports, ?_, ?_, ?_⟩
  · simp [List.length_take, List.length_drop, hL]
  · rw [hframes]; rfl
  · rw [hframes]; rfl
  · rw [hreports]; norm_num [List.chain'_cons]
  · rw [hreports]; decide
  · rw [hreports]; rfl

/-- Witness for C4 at a concrete 200000-byte mp4 payload. -/
theorem send_200000_scenario_witness :
    shouldCompress { name := "m.mp4", type := "video/mp4",
                     content := List.replicate 200000 0 } = false
    ∧ (List.replicate 200000 (0 : Nat)).length = 200000
    ∧ (performP2PSendFrames id { name := "m.mp4", type := "video/mp4",
                                 content := List.replicate 200000 0 }).progressReports = [33, 66, 98, 100] := by
  have h1 : shouldCompress { name := "m.mp4", type := "video/mp4",
                               content := List.replicate 200000 (0 : Nat) } = false := by decide
  have h2 : (List.replicate 200000 (0 : Nat)).length = 200000 := List.length_replicate 200000 0
  exact ⟨h1, h2, (send_200000_scenario id _ h1 h2).2.2.2.2.2.1⟩

/-- C7: the sender compresses a payload if and only if the declared MIME type
is not in the known-incompressible set and the filename does not end in
`.gz`, `.zip`, or `.rar`; the decision reads only the filename and declared
type, never the content. -/
theorem compression_policy (file : JSFile) :
    (shouldCompress file = true ↔
      ((jsEndsWith file.name ".gz" || jsEndsWith file.name ".zip"
          || jsEndsWith file.name ".rar") = false
        ∧ file.type ∉ alreadyCompressedTypes))
    ∧ alreadyCompressedTypes =
        ["image/jpeg", "image/png", "image/gif", "video/mp4",
         "application/zip", "application/gzip", "application/pdf"]
    ∧ (∀ n t c c', shouldCompress { name := n, type := t, content := c }
        = shouldCompress { name := n, type := t, content := c' }) := by
  refine ⟨?_, rfl, fun n t c c' => rfl⟩
  cases hB : (jsEndsWith file.name ".gz" || jsEndsWith file.name ".zip"
      || jsEndsWith file.name ".rar") with
  | true => simp [shouldCompress, hB]
  | false => simp [shouldCompress, hB]

/-! ## The signaling relay (`SignalingRoom.ts` and the worker route) -/

/-- Ready state of a relay-side websocket. -/
inductive WSReadyState where
  | CONNECTING
  | OPEN
  | CLOSING
  | CLOSED
deriving Repr, DecidableEq

/-- A relay-side session: the identity of the server-side socket, its ready
state, and whether `session.send` succeeds (`false` models a thrown send
error). -/
structure Session where
  id : Nat
  readyState : WSReadyState
  sendOk : Bool
deriving Repr, DecidableEq

/-- The `message` listener installed by `SignalingRoom.fetch`: iterate over
`this.sessions` in order; for every session other than the sender whose
socket is OPEN, try `session.send(messageData)`; a failure is caught,
logged, and iteration continues.  Returns the (recipient id, payload)
deliveries in order together with the error log lines; nothing is returned
to the sender. -/
def broadcastMessage (server : Nat) (messageData : String) :
    List Session → List (Nat × String) × List String
  | [] => ([], [])
  | s :: rest =>
      let tl := broadcastMessage server messageData rest
      if (s.id != server) && (s.readyState == WSReadyState.OPEN) then
        if s.sendOk then ((s.id, messageData) :: tl.1, tl.2)
        else (tl.1, "SignalingRoom: Error sending message to a session" :: tl.2)
      else tl

/-- Closed form of the fan-out: deliveries are exactly the other OPEN
sessions whose send succeeds, and log lines correspond to the other OPEN
sessions whose send fails. -/
lemma broadcastMessage_eq (server : Nat) (msg : String) (sessions : List Session) :
    broadcastMessage server msg sessions =
      ((sessions.filter fun s =>
          ((s.id != server) && (s.readyState == WSReadyState.OPEN)) && s.sendOk).map
        (fun s => (s.id, msg)),
       (sessions.filter fun s =>
          ((s.id != server) && (s.readyState == WSReadyState.OPEN)) && !s.sendOk).map
        (fun _ => "SignalingRoom: Error sending message to a session")) := by
  induction sessions with
  | nil => rfl
  | cons s rest ih =>
      simp only [broadcastMessage, ih, List.filter_cons]
      cases h1 : (s.id != server) && (s.readyState == WSReadyState.OPEN) with
      | true => cases h2 : s.sendOk <;> simp [h1, h2]
      | false => simp [h1]

/-- C6: in a room with at least two registered sessions, an inbound message
from one of them is delivered verbatim to every other currently-registered
OPEN session whose send succeeds, is never echoed back to the sender, and a
send failure to one recipient only produces a log line — it neither aborts
delivery to the remaining recipients nor is reported back to the sender
(the handler returns nothing to the sending socket). -/
theorem relay_fanout_no_echo (sessions : List Session) (server : Nat) (msg : String)
    (hN : 2 ≤ sessions.length) :
    (broadcastMessage server msg sessions).1 =
      ((sessions.filter fun s =>
          ((s.id != server) && (s.readyState == WSReadyState.OPEN)) && s.sendOk).map
        (fun s => (s.id, msg)))
    ∧ (∀ d ∈ (broadcastMessage server msg sessions).1, d.1 ≠ server ∧ d.2 = msg)
    ∧ (∀ s ∈ sessions, s.id ≠ server → s.readyState = WSReadyState.OPEN →
        s.sendOk = true → (s.id, msg) ∈ (broadcastMessage server msg sessions).1)
    ∧ (broadcastMessage server msg sessions).2.length =
        (sessions.filter fun s =>
          ((s.id != server) && (s.readyState == WSReadyState.OPEN)) && !s.sendOk).length := by
  refine ⟨(congrArg Prod.fst (broadcastMessage_eq server msg sessions)), ?_, ?_, ?_⟩
  · intro d hd
    rw [broadcastMessage_eq] at hd
    simp only [List.mem_map, List.mem_filter] at hd
    obtain ⟨s, ⟨_, hs⟩, rfl⟩ := hd
    simp only [Bool.and_eq_true, bne_iff_ne, ne_eq] at hs
    exact ⟨hs.1.1, rfl⟩
  · intro s hs hne hopen hsend
    rw [broadcastMessage_eq]
    simp only [List.mem_map, List.mem_filter]
    exact ⟨s, ⟨hs, by simp [hne, hopen, hsend]⟩, rfl⟩
  · rw [broadcastMessage_eq]
    simp

/-- Witness for C6: with sessions 1, 2, 3 all OPEN, session 2's send
failing, and session 1 sending, delivery still reaches session 3 and the
sender gets nothing. -/
theorem relay_fanout_no_echo_witness :
    (broadcastMessage 1 "hello"
      [{ id := 1, readyState := WSReadyState.OPEN, sendOk := true },
       { id := 2, readyState := WSReadyState.OPEN, sendOk := false },
       { id := 3, readyState := WSReadyState.OPEN, sendOk := true }]).1
      = [(3, "hello")] :=
  ((relay_fanout_no_echo
      [{ id := 1, readyState := WSReadyState.OPEN, sendOk := true },
       { id := 2, readyState := WSReadyState.OPEN, sendOk := false },
       { id := 3, readyState := WSReadyState.OPEN, sendOk := true }]
      1 "hello" (by decide)).1).trans (by decide)

/-- A request as the signaling route sees it: the `Upgrade` header and the
`:roomId` path parameter. -/
structure SignalingRequest where
  upgradeHeader : Option String
  roomIdParam : Option String
deriving Repr, DecidableEq

/-- `SignalingRoom.fetch`: a request whose `Upgrade` header is not exactly
`websocket` is refused with 426; otherwise the server socket is accepted,
pushed onto `this.sessions`, and the response is 101 Switching Protocols. -/
def signalingRoomFetch (req : SignalingRequest) (sessions : List Nat)
    (newSession : Nat) : Nat × List Nat :=
  match req.upgradeHeader with
  | none => (426, sessions)
  | some h => if h ≠ "websocket" then (426, sessions)
              else (101, sessions ++ [newSession])

/-- The `/ws/signaling/:roomId` route of the worker: 400 when the room id
parameter is missing, otherwise the request is forwarded to the room's
durable object, keyed by the room id (the durable-object binding is assumed
configured; its absence is a server-side 500 out of scope here). -/
def signalingRoute (req : SignalingRequest) (rooms : String → List Nat)
    (newSession : Nat) : Nat × (String → List Nat) :=
  match req.roomIdParam with
  | none => (400, rooms)
  | some roomId =>
      let result := signalingRoomFetch req (rooms roomId) newSession
      (result.1, fun r => if r = roomId then result.2 else rooms r)

/-- C8: the relay connection endpoint answers a client error (400 or 426)
when the request is not a websocket upgrade or the room id is absent, and
101 Switching Protocols otherwise; a session is registered in the named
room exactly on acceptance, and no other room is ever touched. -/
theorem signaling_route_upgrade_gate (req : SignalingRequest)
    (rooms : String → List Nat) (sid : Nat) :
    ((signalingRoute req rooms sid).1 = 101 ↔
        (req.upgradeHeader = some "websocket" ∧ req.roomIdParam ≠ none))
    ∧ ((signalingRoute req rooms sid).1 ≠ 101 →
        (400 ≤ (signalingRoute req rooms sid).1
          ∧ (signalingRoute req rooms sid).1 < 500
          ∧ ∀ r, (signalingRoute req rooms sid).2 r = rooms r))
    ∧ (∀ roomId, req.roomIdParam = some roomId →
        req.upgradeHeader = some "websocket" →
        ((signalingRoute req rooms sid).2 roomId = rooms roomId ++ [sid]
          ∧ ∀ r, r ≠ roomId → (signalingRoute req rooms sid).2 r = rooms r)) := by
  rcases req with ⟨up, rid⟩
  cases rid with
  | none => simp [signalingRoute]
  | some roomId =>
      cases up with
      | none => simp [signalingRoute, signalingRoomFetch]
      | some h =>
          by_cases hw : h = "websocket"
          · subst hw
            refine ⟨by simp [signalingRoute, signalingRoomFetch], ?_, ?_⟩
            · intro hne
              exact absurd (by simp [signalingRoute, signalingRoomFetch]) hne
            · intro r hr hup
              obtain rfl : roomId = r := by simpa using hr
              constructor
              · simp [signalingRoute, signalingRoomFetch]
              · intro r' hr'
                simp [signalingRoute, signalingRoomFetch, hr']
          · refine ⟨?_, ?_, ?_⟩
            · simp [signalingRoute, signalingRoomFetch, hw]
            · intro _
              refine ⟨?_, ?_, ?_⟩ <;> simp [signalingRoute, signalingRoomFetch, hw]
            · intro r hr hup
              simp at hup
              exact absurd hup hw

/-- Witness for C8: an upgrade request registers session 7 in room `r`; a
non-upgrade request is refused with a client error and changes nothing. -/
theorem signaling_route_upgrade_gate_witness :
    (signalingRoute { upgradeHeader := some "websocket", roomIdParam := some "r" }
        (fun _ => []) 7).2 "r" = [] ++ [7]
    ∧ (400 ≤ (signalingRoute { upgradeHeader := none, roomIdParam := some "r" }
          (fun _ => []) 7).1
        ∧ (signalingRoute { upgradeHeader := none, roomIdParam := some "r" }
            (fun _ => []) 7).1 < 500
        ∧ ∀ r, (signalingRoute { upgradeHeader := none, roomIdParam := some "r" }
            (fun _ => []) 7).2 r = (fun _ => ([] : List Nat)) r) :=
  ⟨((signaling_route_upgrade_gate
      { upgradeHeader := some "websocket", roomIdParam := some "r" }
      (fun _ => []) 7).2.2 "r" rfl rfl).1,
   (signaling_route_upgrade_gate
      { upgradeHeader := none, roomIdParam := some "r" }
      (fun _ => []) 7).2.1 (by decide)⟩

/-! ## `P2PService.destroy` -/

/-- The two handles a `P2PService` instance owns: the simple-peer instance
(direct connection) and the signaling websocket; `none` once released. -/
structure P2PServiceState where
  peer : Option Nat
  ws : Option Nat
deriving Repr, DecidableEq

/-- The release operations `destroy()` can perform. -/
inductive DestroyAction where
  | destroyPeer (id : Nat)
  | closeWs (id : Nat)
deriving Repr, DecidableEq

/-- `P2PService.destroy` from `P2PService.ts`: destroy the peer if present
and null the field, close the websocket if present and null the field.  It
is a total function of the state — it cannot throw in any state. -/
def P2PService.destroy (s : P2PServiceState) : P2PServiceState × List DestroyAction :=
  let peerActs :=
    match s.peer with
    | some id => [DestroyAction.destroyPeer id]
    | none => []
  let wsActs :=
    match s.ws with
    | some id => [DestroyAction.closeWs id]
    | none => []
  ({ peer := none, ws := none }, peerActs ++ wsActs)

/-- C9: `destroy()` releases both the direct peer connection and the
signaling connection, is safe (total, no exception path) in every state,
and is idempotent: a second call finds both fields null and performs no
further release action. -/
theorem destroy_idempotent_releases_both (s : P2PServiceState) :
    (P2PService.destroy s).1.peer = none
    ∧ (P2PService.destroy s).1.ws = none
    ∧ P2PService.destroy (P2PService.destroy s).1 = ((P2PService.destroy s).1, [])
    ∧ (∀ id, s.peer = some id →
        DestroyAction.destroyPeer id ∈ (P2PService.destroy s).2)
    ∧ (∀ id, s.ws = some id →
        DestroyAction.closeWs id ∈ (P2PService.destroy s).2) := by
  rcases s with ⟨p, w⟩
  cases p <;> cases w <;> simp [P2PService.destroy]

/-- Witness for C9 on a fully connected instance. -/
theorem destroy_idempotent_releases_both_witness :
    P2PService.destroy (P2PService.destroy { peer := some 1, ws := some 2 }).1
      = ((P2PService.destroy { peer := some 1, ws := some 2 }).1, [])
    ∧ DestroyAction.destroyPeer 1
        ∈ (P2PService.destroy { peer := some 1, ws := some 2 }).2
    ∧ DestroyAction.closeWs 2
        ∈ (P2PService.destroy { peer := some 1, ws := some 2 }).2 :=
  ⟨(destroy_idempotent_releases_both { peer := some 1, ws := some 2 }).2.2.1,
   (destroy_idempotent_releases_both { peer := some 1, ws := some 2 }).2.2.2.1 1 rfl,
   (destroy_idempotent_releases_both { peer := some 1, ws := some 2 }).2.2.2.2 2 rfl⟩

/-! ## The unified share flow (`executeShareAttempt` and its handlers) -/

/-- JavaScript `String.prototype.trim`, over the character list. -/
def jsTrim (s : String) : String :=
  ⟨((s.data.dropWhile Char.isWhitespace).reverse.dropWhile Char.isWhitespace).reverse⟩

/-- The share-flow step values `App.tsx` actually assigns and tests
(including the literal strings `executeShareAttempt` uses). -/
inductive ShareStep where
  | idle
  | awaiting_room_id
  | p2p_attempt
  | p2p_r2_pointer_attempt
  | p2p_connected_for_action
  | p2p_direct_transfer
  | p2p_r2_pointer_send
  | p2p_r2_pointer_sent
  | p2p_direct_transfer_failed_offer_r2
  | r2_fallback_upload
  | share_complete_success
  | share_failed
deriving Repr, DecidableEq

/-- The item being shared: a raw local file, or a pointer to an object
already in durable storage. -/
inductive ShareItem where
  | file (f : JSFile)
  | r2Pointer (filename : String)
deriving Repr, DecidableEq

/-- The share-flow portion of the app state: the current step, the item,
the live `P2PService` instance (by identity), the armed connect deadline
(`shareP2PTimeoutIdRef`, as an absolute ms timestamp), the services
destroyed so far, and how many storage uploads (`performR2Upload` calls)
have run. -/
structure ShareFlowState where
  shareFlowStep : ShareStep
  itemToShare : Option ShareItem
  shareP2PServiceInstance : Option Nat
  connectDeadline : Option Nat
  destroyedServices : List Nat
  r2Uploads : Nat
deriving Repr, DecidableEq

/-- `executeShareAttempt` from `App.tsx` (up to the point of waiting for
events), started at time `now` and creating the fresh service `sid`: bail
out to `idle` with no item, bail out unchanged on a blank room id; otherwise
destroy any previous service, clear the old timer, set the step to
`p2p_attempt` for a raw file or `p2p_r2_pointer_attempt` for a pointer,
install the new service, and arm the 15 s connect deadline. -/
def executeShareAttempt (now sid : Nat) (item : Option ShareItem)
    (targetRoomId : String) (s : ShareFlowState) : ShareFlowState :=
  match item with
  | none => { s with shareFlowStep := ShareStep.idle }
  | some it =>
      if jsTrim targetRoomId = "" then s
      else
        let destroyed :=
          match s.shareP2PServiceInstance with
          | some old => s.destroyedServices ++ [old]
          | none => s.destroyedServices
        let initialStep :=
          match it with
          | ShareItem.file _ => ShareStep.p2p_attempt
          | ShareItem.r2Pointer _ => ShareStep.p2p_r2_pointer_attempt
        { s with
            shareFlowStep := initialStep,
            destroyedServices := destroyed,
            shareP2PServiceInstance := some sid,
            connectDeadline := some (now + P2P_CONNECT_TIMEOUT_MS) }

/-- The connect-deadline `setTimeout` callback of `executeShareAttempt` for
service `sid`.  It only runs while the deadline is armed (`clearTimeout`
disarms it and `setTimeout` is one-shot).  If `sid` is still the live
instance and the step is one of the three pre-transfer attempt steps, the
service is destroyed and the step moves to the failure step — `share_failed`
unless the item being shared is a raw file; in every case the timer
reference is nulled. -/
def shareConnectTimeoutFire (sid : Nat) (s : ShareFlowState) : ShareFlowState :=
  match s.connectDeadline with
  | none => s
  | some _ =>
      if s.shareP2PServiceInstance = some sid
          ∧ (s.shareFlowStep = ShareStep.p2p_attempt
             ∨ s.shareFlowStep = ShareStep.p2p_connected_for_action
             ∨ s.shareFlowStep = ShareStep.p2p_r2_pointer_attempt) then
        let failureStep :=
          match s.itemToShare with
          | some (ShareItem.file _) => ShareStep.p2p_direct_transfer_failed_offer_r2
          | _ => ShareStep.share_failed
        { s with
            shareFlowStep := failureStep,
            destroyedServices := s.destroyedServices ++ [sid],
            connectDeadline := none }
      else { s with connectDeadline := none }

/-- The `onClose` callback `executeShareAttempt` installs on service `sid`
(`isDirectFileShare` is the constant captured at creation): clear the
timer; if the step is one of the five in-progress steps, move to the
failure step; null the instance field when `sid` is still the live
instance. -/
def shareOnClose (sid : Nat) (isDirectFileShare : Bool) (s : ShareFlowState) :
    ShareFlowState :=
  let failureStep :=
    if isDirectFileShare then ShareStep.p2p_direct_transfer_failed_offer_r2
    else ShareStep.share_failed
  let s1 := { s with connectDeadline := none }
  let s2 :=
    if s1.shareFlowStep = ShareStep.p2p_attempt
        ∨ s1.shareFlowStep = ShareStep.p2p_connected_for_action
        ∨ s1.shareFlowStep = ShareStep.p2p_direct_transfer
        ∨ s1.shareFlowStep = ShareStep.p2p_r2_pointer_attempt
        ∨ s1.shareFlowStep = ShareStep.p2p_r2_pointer_send then
      { s1 with shareFlowStep := failureStep }
    else s1
  if s2.shareP2PServiceInstance = some sid then
    { s2 with shareP2PServiceInstance := none }
  else s2

/-- The `onError` callback `executeShareAttempt` installs on service `sid`:
clear the timer, move to the failure step unconditionally, destroy the
service, and null the instance field when `sid` is still live. -/
def shareOnError (sid : Nat) (isDirectFileShare : Bool) (s : ShareFlowState) :
    ShareFlowState :=
  let failureStep :=
    if isDirectFileShare then ShareStep.p2p_direct_transfer_failed_offer_r2
    else ShareStep.share_failed
  let s1 := { s with
      connectDeadline := none,
      shareFlowStep := failureStep,
      destroyedServices := s.destroyedServices ++ [sid] }
  if s1.shareP2PServiceInstance = some sid then
    { s1 with shareP2PServiceInstance := none }
  else s1

/-- `handleShareR2Fallback` from `App.tsx`: only a raw-file item performs a
storage upload; either way the flow returns to `idle`. -/
def handleShareR2Fallback (s : ShareFlowState) : ShareFlowState :=
  match s.itemToShare with
  | some (ShareItem.file _) =>
      { s with shareFlowStep := ShareStep.idle, r2Uploads := s.r2Uploads + 1 }
  | _ => { s with shareFlowStep := ShareStep.idle }

/-- C5: a pointer-item share attempt into a room where no peer connects
within the 15 s connect deadline reaches `share_failed`, performs no
storage upload, destroys the transport, and the deadline drives this
failure edge exactly once — the timer is disarmed so it cannot fire again,
and the `onClose` raised by the destroy performs no further transition. -/
theorem pointer_share_connect_timeout (s : ShareFlowState) (now sid : Nat)
    (ptr roomId : String)
    (hroom : ¬ jsTrim roomId = "")
    (hitem : s.itemToShare = some (ShareItem.r2Pointer ptr)) :
    (shareConnectTimeoutFire sid
        (executeShareAttempt now sid (some (ShareItem.r2Pointer ptr)) roomId s)).shareFlowStep
      = ShareStep.share_failed
    ∧ (shareConnectTimeoutFire sid
        (executeShareAttempt now sid (some (ShareItem.r2Pointer ptr)) roomId s)).r2Uploads
      = s.r2Uploads
    ∧ sid ∈ (shareConnectTimeoutFire sid
        (executeShareAttempt now sid (some (ShareItem.r2Pointer ptr)) roomId s)).destroyedServices
    ∧ (executeShareAttempt now sid (some (ShareItem.r2Pointer ptr)) roomId
        s).connectDeadline = some (now + P2P_CONNECT_TIMEOUT_MS)
    ∧ (shareConnectTimeoutFire sid
        (executeShareAttempt now sid (some (ShareItem.r2Pointer ptr)) roomId s)).connectDeadline
      = none
    ∧ shareConnectTimeoutFire sid
        (shareConnectTimeoutFire sid
          (executeShareAttempt now sid (some (ShareItem.r2Pointer ptr)) roomId s))
      = shareConnectTimeoutFire sid
          (executeShareAttempt now sid (some (ShareItem.r2Pointer ptr)) roomId s)
    ∧ (shareOnClose sid false
        (shareConnectTimeoutFire sid
          (executeShareAttempt now sid (some (ShareItem.r2Pointer ptr)) roomId s))).shareFlowStep
      = ShareStep.share_failed := by
  simp [executeShareAttempt, shareConnectTimeoutFire, shareOnClose, hroom, hitem]

/-- Witness for C5: a pointer share into room `room1` with no peer. -/
theorem pointer_share_connect_timeout_witness :
    (shareConnectTimeoutFire 1
        (executeShareAttempt 0 1 (some (ShareItem.r2Pointer "doc.pdf")) "room1"
          { shareFlowStep := ShareStep.awaiting_room_id,
            itemToShare := some (ShareItem.r2Pointer "doc.pdf"),
            shareP2PServiceInstance := none, connectDeadline := none,
            destroyedServices := [], r2Uploads := 0 })).shareFlowStep
      = ShareStep.share_failed
    ∧ (shareConnectTimeoutFire 1
        (executeShareAttempt 0 1 (some (ShareItem.r2Pointer "doc.pdf")) "room1"
          { shareFlowStep := ShareStep.awaiting_room_id,
            itemToShare := some (ShareItem.r2Pointer "doc.pdf"),
            shareP2PServiceInstance := none, connectDeadline := none,
            destroyedServices := [], r2Uploads := 0 })).r2Uploads = 0 := by
  have h := pointer_share_connect_timeout
    { shareFlowStep := ShareStep.awaiting_room_id,
      itemToShare := some (ShareItem.r2Pointer "doc.pdf"),
      shareP2PServiceInstance := none, connectDeadline := none,
      destroyedServices := [], r2Uploads := 0 }
    0 1 "doc.pdf" "room1" (by decide) rfl
  exact ⟨h.1, h.2.1⟩

end CalmSilence
